import Mathlib

set_option linter.unusedVariables false

/-!
Shallow embedding of the SolomonSays financial-advisor RAG pipeline
(source files: backend/modules/query_processing.py, rag_system.py,
response_generation.py, knowledge_base.py).

Modelling conventions:
- Python text is modelled as Lean String (structure over List Char);
  character-level scanning works on List Char.
- Python floats are modelled as rationals; the constants involved
  (0.5, 1/3, 0.7, 1/(i+1)) make every compared quantity exact enough
  that orderings and the capped sums agree with IEEE evaluation.
- Python dicts that are used as records become structures; dicts used
  as ordered mappings become association lists in insertion order.
- External capabilities (the FAISS store, the chat model, json.loads on
  an extracted JSON string, the langchain text splitter) are parameters
  returning Except String, so that a raising capability is representable.
- try/except blocks are embedded with an explicit tryCatchE combinator.
- Logging calls and the persisted metadata counters of the knowledge
  base are elided: they do not affect any returned value.
-/

/-- Python re `\w` for the ASCII texts treated here: alphanumeric or underscore. -/
def is_word_char (c : Char) : Bool := c.isAlphanum || c == '_'

def is_word_opt : Option Char → Bool
  | none => false
  | some c => is_word_char c

/-- A regex word boundary `\b` sits between two positions whose word-char status differs. -/
def boundary (a b : Option Char) : Bool := is_word_opt a != is_word_opt b

/-- Python whitespace normalization (re.sub of a whitespace run with one
space); the flag records whether the previous character was whitespace. -/
def collapse_ws : Bool → List Char → List Char
  | _, [] => []
  | prevWs, c :: cs =>
    if c.isWhitespace then
      if prevWs then collapse_ws true cs else ' ' :: collapse_ws true cs
    else c :: collapse_ws false cs

/-- Python `str.strip()`. -/
def strip_ws (l : List Char) : List Char :=
  ((l.dropWhile Char.isWhitespace).reverse.dropWhile Char.isWhitespace).reverse

/-- The characters kept by `_clean_query`: `[^\w\s\?]` is removed. -/
def keep_char (c : Char) : Bool := is_word_char c || c.isWhitespace || c == '?'

/-- Embedding of `QueryProcessingModule._clean_query`: lowercase, collapse whitespace,
strip, then remove special characters except question marks. -/
def clean_query_chars (l : List Char) : List Char :=
  (strip_ws (collapse_ws false (l.map Char.toLower))).filter keep_char

def clean_query (s : String) : String := ⟨clean_query_chars s.data⟩

/-- Python `str.split()` (split on whitespace, dropping empty pieces);
`acc` holds the current word reversed. -/
def split_ws_aux : List Char → List Char → List (List Char)
  | acc, [] => if acc = [] then [] else [acc.reverse]
  | acc, c :: cs =>
    if c.isWhitespace then
      if acc = [] then split_ws_aux [] cs else acc.reverse :: split_ws_aux [] cs
    else split_ws_aux (c :: acc) cs

def word_count (s : String) : Nat := (split_ws_aux [] s.data).length

/-- One attempted match of the pattern `\b<kw>\b` at the head of `text`,
with `prev` the character just before this position. -/
def matches_at (kw text : List Char) (prev : Option Char) : Bool :=
  (text.take kw.length == kw) && boundary prev kw.head?
    && boundary kw.getLast? ((text.drop kw.length).head?)

/-- Scanning as in `re.findall` for `\b<kw>\b`: leftmost, non-overlapping; after a
match the scan resumes right after it.  The `max kw.length 1` step only
differs from `kw.length` for an empty keyword, which the configuration
never contains (the top-level wrapper returns 0 for it anyway).  The
scanners take a fuel argument (initialised to the text length, which
always suffices because every step consumes at least one character) so
that they stay structurally recursive and kernel-reducible. -/
def count_matches_aux (kw : List Char) : Nat → Option Char → List Char → Nat
  | 0, _, _ => 0
  | _, _, [] => 0
  | fuel + 1, prev, c :: cs =>
    if matches_at kw (c :: cs) prev then
      1 + count_matches_aux kw fuel kw.getLast? ((c :: cs).drop (max kw.length 1))
    else
      count_matches_aux kw fuel (some c) cs

def count_matches (kw text : List Char) : Nat :=
  if kw = [] then 0 else count_matches_aux kw text.length none text

/-- The default financial topic taxonomy from `_load_financial_topics`
(constructed with `financial_topics_path = None`). -/
def financial_topics : List (String × List String) :=
  [ ("budgeting",
      ["budget", "budgeting", "50/30/20", "envelope", "zero-based",
       "expense", "spending", "income", "cash flow", "track expenses"]),
    ("saving",
      ["save", "saving", "savings", "emergency fund", "rainy day fund",
       "sinking fund", "save money", "savings rate", "savings account"]),
    ("investing",
      ["invest", "investing", "investment", "stock", "bond", "etf",
       "mutual fund", "index fund", "portfolio", "asset allocation",
       "diversification", "retirement", "401k", "ira", "roth"]),
    ("debt",
      ["debt", "loan", "credit card", "mortgage", "student loan",
       "car loan", "personal loan", "debt snowball", "debt avalanche",
       "interest rate", "refinance", "consolidation"]),
    ("credit",
      ["credit", "credit score", "credit report", "fico", "credit card",
       "credit utilization", "credit history", "credit limit"]),
    ("taxes",
      ["tax", "taxes", "tax return", "tax refund", "tax deduction",
       "tax credit", "income tax", "property tax", "capital gains"]),
    ("insurance",
      ["insurance", "life insurance", "health insurance", "auto insurance",
       "home insurance", "disability insurance", "premium", "deductible"]),
    ("retirement",
      ["retirement", "retire", "401k", "ira", "roth", "pension",
       "social security", "retirement planning", "retirement age"]),
    ("housing",
      ["house", "home", "mortgage", "rent", "property", "real estate",
       "down payment", "closing costs", "homeowner", "landlord"]),
    ("financial_planning",
      ["financial plan", "financial planning", "financial advisor",
       "financial goals", "net worth", "estate planning", "will", "trust"]) ]

structure TopicEntry where
  topic : String
  score : ℚ
  matched_keywords : List String
deriving DecidableEq

/-- Per-topic raw score before capping: for each keyword, its match count
and its word count contribute `matches * (0.5 + 0.5 * words / 3)`. -/
def topic_raw_score (pairs : List (Nat × Nat)) : ℚ :=
  pairs.foldr (fun p acc => (p.1 : ℚ) * (1/2 + (1/2) * (p.2 : ℚ) / 3) + acc) 0

/-- The stored per-topic score: the raw sum capped at 1.0. -/
def topic_score (pairs : List (Nat × Nat)) : ℚ :=
  min (topic_raw_score pairs) 1

/-- For each keyword of a topic: its findall match count in `text` and its
`len(keyword.split())`. -/
def keyword_pairs (kws : List String) (text : List Char) : List (Nat × Nat) :=
  kws.map fun kw => (count_matches kw.data text, word_count kw)

/-- Stable descending insertion by score: an incoming (earlier) entry is
placed before all later entries of equal score, matching the stability of
Python `sorted(..., reverse=True)`. -/
def insert_desc (e : TopicEntry) : List TopicEntry → List TopicEntry
  | [] => [e]
  | x :: xs => if e.score < x.score then x :: insert_desc e xs else e :: x :: xs

def sort_desc : List TopicEntry → List TopicEntry
  | [] => []
  | x :: xs => insert_desc x (sort_desc xs)

/-- Embedding of `QueryProcessingModule._extract_topics`: score each configured topic,
keep those with positive score (capped at 1.0) together with the keywords
that matched, sorted descending by score. -/
def extract_topics (cfg : List (String × List String)) (text : List Char) : List TopicEntry :=
  sort_desc (cfg.filterMap fun tk =>
    if 0 < topic_raw_score (keyword_pairs tk.2 text) then
      some { topic := tk.1, score := topic_score (keyword_pairs tk.2 text),
             matched_keywords := tk.2.filter fun kw => count_matches kw.data text != 0 }
    else none)

def question_words : List String :=
  ["what", "how", "why", "when", "where", "who", "which", "can", "should", "could", "would"]

def starts_with (p l : List Char) : Bool := l.take p.length == p

/-- Embedding of `QueryProcessingModule._is_question`: a question mark anywhere, or a
leading interrogative word followed by a space. -/
def is_question (text : List Char) : Bool :=
  text.contains '?' || question_words.any fun w => starts_with (w.data ++ [' ']) text



/-! Numeric-entity extraction (`_extract_numbers`): the three regex passes
are modelled by explicit scanners.  Greedy sub-matching with backtracking
is represented by candidate lists in the order the regex engine explores
them (greediest first), taking the first candidate whose continuation
succeeds. -/

/-- Greedy `(?:,\d{3})*`: the consumed repetitions of a comma followed by
exactly three digits. -/
def comma_groups (l : List Char) : List Char :=
  match l with
  | ',' :: d1 :: d2 :: d3 :: rest =>
    if d1.isDigit && d2.isDigit && d3.isDigit then
      ',' :: d1 :: d2 :: d3 :: comma_groups rest
    else []
  | _ => []

/-- Greedy `(?:\.\d+)?`: a dot followed by at least one digit, or nothing. -/
def dec_part (l : List Char) : List Char :=
  match l with
  | '.' :: rest =>
    let r := rest.takeWhile (·.isDigit)
    if r = [] then [] else '.' :: r
  | _ => []

/-- Fully greedy `\d+(?:,\d{3})*(?:\.\d+)?` at the head of `l` (empty when
`l` does not start with a digit). -/
def parse_numeral_full (l : List Char) : List Char :=
  let d := l.takeWhile (·.isDigit)
  if d = [] then [] else
    let g := comma_groups (l.drop d.length)
    d ++ g ++ dec_part (l.drop (d.length + g.length))

/-- Backtracking variants of the optional decimal part `(?:\.\d+)?` over
digit run `r`, longest kept digits first. -/
def dec_variants (dg r : List Char) : List (List Char) :=
  (List.range r.length).map fun j => dg ++ '.' :: r.take (r.length - j)

/-- Backtracking variants of the comma-group repetition, from one fewer
than the greedy count down to zero groups. -/
def group_variants (d g : List Char) : List (List Char) :=
  (List.range (g.length / 4)).map fun j => d ++ g.take (4 * (g.length / 4 - 1 - j))

/-- Backtracking variants of the initial `\d+`, from one digit fewer than
the greedy run down to a single digit.  A shortened run is followed by a
digit, so no comma group or decimal can attach to it. -/
def int_variants (d : List Char) : List (List Char) :=
  (List.range (d.length - 1)).map fun j => d.take (d.length - 1 - j)

/-- All candidate matches of `\d+(?:,\d{3})*(?:\.\d+)?` at the head of `l`,
in the order a backtracking regex engine tries them. -/
def num_candidates (l : List Char) : List (List Char) :=
  let d := l.takeWhile (·.isDigit)
  if d = [] then [] else
    let g := comma_groups (l.drop d.length)
    let dec := dec_part (l.drop (d.length + g.length))
    (if dec = [] then [] else dec_variants (d ++ g) dec.tail)
      ++ [d ++ g] ++ group_variants d g ++ int_variants d

/-- First candidate numeral whose following character satisfies the
closing `\b` (next character absent or not a word character). -/
def first_valid_number (l : List Char) : Option (List Char) :=
  (num_candidates l).find? fun cand => !is_word_opt ((l.drop cand.length).head?)

/-- Scanner for pass three, `\b(\d+(?:,\d{3})*(?:\.\d+)?)\b`: at each
position whose preceding character is not a word character and whose own
character is a digit, take the first boundary-valid candidate; resume
after a match.  Returns (start index, matched text) pairs. -/
def number_scan : Nat → Option Char → Nat → List Char → List (Nat × List Char)
  | 0, _, _, _ => []
  | _, _, _, [] => []
  | fuel + 1, prev, i, c :: cs =>
    if !is_word_opt prev && c.isDigit then
      match first_valid_number (c :: cs) with
      | some cand =>
        (i, cand) ::
          number_scan fuel cand.getLast? (i + max cand.length 1) ((c :: cs).drop (max cand.length 1))
      | none => number_scan fuel (some c) (i + 1) cs
    else number_scan fuel (some c) (i + 1) cs

/-- After a `$`: `\s*` then a mandatory numeral.  Returns the text of the
match after the dollar sign and the captured group. -/
def parse_dollar_at (cs : List Char) : Option (List Char × List Char) :=
  let sp := cs.takeWhile (·.isWhitespace)
  let num := parse_numeral_full (cs.drop sp.length)
  if num = [] then none else some (sp ++ num, num)

/-- Scanner for pass one, `\$\s*(\d+(?:,\d{3})*(?:\.\d+)?)`: matches start
only at a dollar sign.  Returns (start, full match, group 1) triples. -/
def dollar_scan : Nat → Nat → List Char → List (Nat × List Char × List Char)
  | 0, _, _ => []
  | _, _, [] => []
  | fuel + 1, i, c :: cs =>
    if c = '$' then
      match parse_dollar_at cs with
      | some (tl, grp) =>
        (i, '$' :: tl, grp) ::
          dollar_scan fuel (i + 1 + tl.length) ((c :: cs).drop (1 + tl.length))
      | none => dollar_scan fuel (i + 1) cs
    else dollar_scan fuel (i + 1) cs

/-- Candidates for the percent group `(\d+(?:\.\d+)?)`, greediest first. -/
def percent_candidates (l : List Char) : List (List Char) :=
  let d := l.takeWhile (·.isDigit)
  if d = [] then [] else
    let dec := dec_part (l.drop d.length)
    (if dec = [] then [] else dec_variants d dec.tail) ++ [d] ++ int_variants d

/-- First percent candidate followed by `\s*` and a percent sign.  Returns
(group 1, full match including spaces and the percent sign). -/
def percent_first (l : List Char) : Option (List Char × List Char) :=
  (percent_candidates l).findSome? fun cand =>
    let after := l.drop cand.length
    let sp := after.takeWhile (·.isWhitespace)
    if (after.drop sp.length).head? = some '%' then some (cand, cand ++ sp ++ ['%'])
    else none

/-- Scanner for pass two, `(\d+(?:\.\d+)?)\s*%` (no word boundaries).
Returns (start, group 1, full match) triples. -/
def percent_scan : Nat → Nat → List Char → List (Nat × List Char × List Char)
  | 0, _, _ => []
  | _, _, [] => []
  | fuel + 1, i, c :: cs =>
    if c.isDigit then
      match percent_first (c :: cs) with
      | some (grp, full) =>
        (i, grp, full) ::
          percent_scan fuel (i + max full.length 1) ((c :: cs).drop (max full.length 1))
      | none => percent_scan fuel (i + 1) cs
    else percent_scan fuel (i + 1) cs

def digits_to_nat (l : List Char) : Nat :=
  l.foldl (fun a c => 10 * a + (c.toNat - 48)) 0

/-- Python `float(value_str)` on a string of digits with an optional single
dot (thousands separators already removed). -/
def parse_val (l : List Char) : ℚ :=
  let ip := l.takeWhile (fun c => !(c == '.'))
  let fp := l.drop (ip.length + 1)
  (digits_to_nat ip : ℚ) + (digits_to_nat fp : ℚ) / ((10 : ℚ) ^ fp.length)

/-- The context window `query[max(0, start-20) : min(len, end+20)]`. -/
def context_of (text : List Char) (s e : Nat) : List Char :=
  (text.drop (s - 20)).take (min text.length (e + 20) - (s - 20))

inductive NumType
  | currency
  | percentage
  | number
deriving DecidableEq

/-- One element of the `numbers` list.  The `currency` field models the
extra `"currency": "USD"` key that only the dollar pass adds. -/
structure NumEntry where
  value : ℚ
  numType : NumType
  currency : Option String
  original : String
  context : String
deriving DecidableEq

/-- The entry built for one match of the dollar pass. -/
def dollar_entry (text : List Char) (m : Nat × List Char × List Char) : NumEntry :=
  { value := parse_val (m.2.2.filter fun c => !(c == ','))
    numType := NumType.currency
    currency := some "USD"
    original := ⟨m.2.1⟩
    context := ⟨context_of text m.1 (m.1 + m.2.1.length)⟩ }

/-- The entry built for one match of the percent pass. -/
def percent_entry (text : List Char) (m : Nat × List Char × List Char) : NumEntry :=
  { value := parse_val m.2.1
    numType := NumType.percentage
    currency := none
    original := ⟨m.2.2⟩
    context := ⟨context_of text m.1 (m.1 + m.2.2.length)⟩ }

/-- The entry built for one match of the generic-number pass. -/
def number_entry (text : List Char) (m : Nat × List Char) : NumEntry :=
  { value := parse_val (m.2.filter fun c => !(c == ','))
    numType := NumType.number
    currency := none
    original := ⟨m.2⟩
    context := ⟨context_of text m.1 (m.1 + m.2.length)⟩ }

/-- One step of the generic-number loop: a match is skipped when an
already-collected entry (of any pass, including earlier generic ones) has
exactly the same matched text. -/
def number_fold_step (text : List Char) (acc : List NumEntry) (m : Nat × List Char) :
    List NumEntry :=
  if acc.any fun n => n.original == (⟨m.2⟩ : String) then acc
  else acc ++ [number_entry text m]

/-- Embedding of `QueryProcessingModule._extract_numbers`: dollar pass, then percent
pass, then the generic-number pass with its duplicate-span skip. -/
def extract_numbers (text : List Char) : List NumEntry :=
  (number_scan text.length none 0 text).foldl (number_fold_step text)
    ((dollar_scan text.length 0 text).map (dollar_entry text)
      ++ (percent_scan text.length 0 text).map (percent_entry text))

/-- Python substring test `needle in hay`. -/
def contains_sub (needle hay : List Char) : Bool :=
  match hay with
  | [] => needle == ([] : List Char)
  | c :: cs => starts_with needle (c :: cs) || contains_sub needle cs

def comparison_indicators : List String :=
  ["compare", "difference", "versus", "vs", "better", "worse", "pros and cons"]

def multi_part_indicators : List String :=
  [" and ", " or ", " also ", " additionally ", "; ", "first", "second", "finally"]

inductive Complexity
  | simple
  | moderate
  | complex
deriving DecidableEq

/-- Embedding of `QueryProcessingModule._determine_complexity`. -/
def determine_complexity (text : List Char) : Complexity :=
  let wc := (split_ws_aux [] text).length
  let padded := ' ' :: (text ++ [' '])
  let term_count := financial_topics.foldl
    (fun acc tk => acc + (tk.2.filter fun kw => contains_sub (' ' :: (kw.data ++ [' '])) padded).length) 0
  let has_comparison := comparison_indicators.any fun s => contains_sub s.data text
  let has_multi_part := multi_part_indicators.any fun s => contains_sub s.data text
  if wc ≤ 10 && term_count ≤ 1 && !has_comparison && !has_multi_part then
    Complexity.simple
  else if 25 < wc || 3 < term_count || (has_comparison && has_multi_part) then
    Complexity.complex
  else
    Complexity.moderate

structure ProcessedQuery where
  original_query : String
  cleaned_query : String
  topics : List TopicEntry
  is_question : Bool
  numbers : List NumEntry
  complexity : Complexity
deriving DecidableEq

/-- Embedding of `QueryProcessingModule.process_query`: clean, then run every analysis
pass on the cleaned text. -/
def process_query (query : String) : ProcessedQuery :=
  let cleaned := clean_query query
  { original_query := query
    cleaned_query := cleaned
    topics := extract_topics financial_topics cleaned.data
    is_question := is_question cleaned.data
    numbers := extract_numbers cleaned.data
    complexity := determine_complexity cleaned.data }

/-- The topic-focused query format string: the topic name, a space, the
first two matched keywords joined by spaces, a space, the cleaned query. -/
def mk_topic_query (te : TopicEntry) (cleaned : String) : String :=
  te.topic ++ " " ++ String.intercalate " " (te.matched_keywords.take 2) ++ " " ++ cleaned

/-- Embedding of `QueryProcessingModule.generate_search_queries`: the cleaned query
first, then one query per top-2 topic having matched keywords, truncated
to `max_queries` (the source calls it with its default, 3). -/
def generate_search_queries (pq : ProcessedQuery) (max_queries : Nat) : List String :=
  (pq.cleaned_query ::
      (pq.topics.take 2).filterMap fun te =>
        if te.matched_keywords = [] then none
        else some (mk_topic_query te pq.cleaned_query)).take max_queries




/-! Response generation (response_generation.py).  The chat model call and
`json.loads` on an extracted JSON string are parameters of type
`... → Except String _` so that raising capabilities are representable. -/

/-- A retrieved langchain Document: page content plus the metadata keys the
pipeline reads (`none` models an absent key). -/
structure Doc where
  page_content : String
  title : Option String
  source : Option String
  url : Option String
deriving DecidableEq

structure Citation where
  source_title : String
  source_url : String
  relevance : ℚ
  quote : Option String
deriving DecidableEq

/-- The response dict shape shared by all paths of `generate_response`. -/
structure Response where
  answer : String
  citations : List Citation
  confidence : ℚ
  follow_up_questions : List String
deriving DecidableEq

/-- Result of `json.loads` on the extracted string: the validation loop in
`_parse_response` only checks key presence, so each key is optional. -/
structure ParsedJson where
  answer : Option String
  citations : Option (List Citation)
  confidence : Option ℚ
  follow_up_questions : Option (List String)

/-- Embedding of a Python try/except block: run the body; if it raises,
run the handler on the exception detail. -/
def tryCatchE {α : Type} (body : Except String α) (handler : String → Except String α) :
    Except String α :=
  match body with
  | Except.ok a => Except.ok a
  | Except.error e => handler e

/-- One block of `_format_context`. -/
def format_doc (i : Nat) (d : Doc) : String :=
  let title := d.title.getD ("Document " ++ toString (i + 1))
  let source := d.source.getD "Unknown source"
  let url := d.url.getD ""
  "[" ++ toString (i + 1) ++ "] " ++ title ++ " (Source: " ++ source ++ ")"
    ++ (if url == "" then "" else " [URL: " ++ url ++ "]")
    ++ "\nContent: " ++ d.page_content ++ "\n"

def format_context_aux : Nat → List Doc → List String
  | _, [] => []
  | i, d :: ds => format_doc i d :: format_context_aux (i + 1) ds

/-- Embedding of `ResponseGenerationModule._format_context`. -/
def format_context (docs : List Doc) : String :=
  if docs = [] then "No relevant information found."
  else String.intercalate "\n" (format_context_aux 0 docs)

def lbrace : Char := Char.ofNat 123

def rbrace : Char := Char.ofNat 125

/-- Index of the first occurrence of `pat` in `l` (`re.search` position). -/
def find_sub (pat : List Char) : List Char → Option Nat
  | [] => if starts_with pat [] then some 0 else none
  | c :: cs =>
    if starts_with pat (c :: cs) then some 0 else (find_sub pat cs).map (· + 1)

def last_index_of (c : Char) (l : List Char) : Option Nat :=
  ((List.range l.length).filter fun i => l.get? i == some c).getLast?

def fence_open : List Char := "```json\n".data

def fence_close : List Char := "\n```".data

/-- Leftmost match of the non-greedy fenced pattern: at the first opening
marker followed somewhere by a closing marker, the shortest enclosed text. -/
def json_fence_aux : List Char → Option (List Char)
  | [] => none
  | c :: cs =>
    if starts_with fence_open (c :: cs) then
      match find_sub fence_close ((c :: cs).drop fence_open.length) with
      | some q => some (((c :: cs).drop fence_open.length).take q)
      | none => json_fence_aux cs
    else json_fence_aux cs

/-- The JSON-extraction part of `_parse_response`: a fenced block first;
otherwise the greedy brace span (first opening brace to last closing
brace); otherwise the ValueError. -/
def extract_json (response : List Char) : Except String (List Char) :=
  match json_fence_aux response with
  | some g => Except.ok g
  | none =>
    match find_sub [lbrace] response, last_index_of rbrace response with
    | some i, some j =>
      if i < j then Except.ok ((response.drop i).take (j - i + 1))
      else Except.error "Could not extract JSON from response"
    | _, _ => Except.error "Could not extract JSON from response"

/-- Whether `_parse_response` can extract a JSON string from the raw text. -/
def can_extract_json (response : String) : Bool :=
  match extract_json response.data with
  | Except.ok _ => true
  | Except.error _ => false

/-- Embedding of `ResponseGenerationModule._parse_response`: extract, parse with the
`json.loads` capability, then fill missing required fields with defaults. -/
def parse_response (json_loads : String → Except String ParsedJson) (response : String) :
    Except String Response :=
  match extract_json response.data with
  | Except.error e => Except.error e
  | Except.ok js =>
    match json_loads ⟨js⟩ with
    | Except.error e => Except.error e
    | Except.ok parsed =>
      Except.ok { answer := parsed.answer.getD ""
                  citations := parsed.citations.getD []
                  confidence := parsed.confidence.getD 0
                  follow_up_questions := parsed.follow_up_questions.getD [] }

/-- Python `str.replace(pat, rep)`: left-to-right, non-overlapping; the
fuel (initialised to the text length) keeps recursion structural. -/
def replace_all (pat rep : List Char) : Nat → List Char → List Char
  | 0, l => l
  | _, [] => []
  | fuel + 1, c :: cs =>
    if !(pat == []) && starts_with pat (c :: cs) then
      rep ++ replace_all pat rep fuel ((c :: cs).drop pat.length)
    else c :: replace_all pat rep fuel cs

/-- Citations synthesized by `_generate_simple_response`: one per passage,
relevance `1.0 / (i + 1)`, no quote. -/
def simple_citations : Nat → List Doc → List Citation
  | _, [] => []
  | i, d :: ds =>
    { source_title := d.title.getD ("Document " ++ toString (i + 1))
      source_url := d.url.getD ""
      relevance := 1 / ((i : ℚ) + 1)
      quote := none } :: simple_citations (i + 1) ds

/-- Embedding of `ResponseGenerationModule._generate_simple_response`: the parse-failure
fallback.  The fenced-marker stripping only happens when the raw text
contains the literal opening marker. -/
def generate_simple_response (docs : List Doc) (raw : String) : Response :=
  let answer :=
    if contains_sub "```json".data raw.data then
      let a1 := replace_all "```json".data [] raw.data.length raw.data
      (⟨replace_all "```".data [] a1.length a1⟩ : String)
    else raw
  { answer := answer
    citations := simple_citations 0 docs
    confidence := 7/10
    follow_up_questions := ["Can you explain more about this topic?",
                            "What are the next steps I should take?"] }

/-- The final fallback dict of `generate_response`. -/
def generation_fallback : Response :=
  { answer := "I\x27m sorry, I encountered an error while generating a response. Please try asking your question differently."
    citations := []
    confidence := 0
    follow_up_questions := [] }

/-- Embedding of `ResponseGenerationModule.generate_response`: build context, call the
generation capability, parse; on parse failure degrade to the simple
response; on any other exception return the final fallback.  The
`chat_history` parameter is accepted and, as in the source, unused. -/
def generate_response (run_chain : String → String → Except String String)
    (json_loads : String → Except String ParsedJson)
    (query : String) (docs : List Doc) (chat_history : List (String × String)) :
    Except String Response :=
  tryCatchE
    (match run_chain query (format_context docs) with
     | Except.error e => Except.error e
     | Except.ok raw =>
       tryCatchE (parse_response json_loads raw)
         (fun _ => Except.ok (generate_simple_response docs raw)))
    (fun _ => Except.ok generation_fallback)

/-! Pipeline orchestrator (rag_system.py).  The vector-store similarity
search and Python `hash` are parameters; everything else is the embedded
code above. -/

structure RagResponse where
  answer : String
  citations : List Citation
  confidence : ℚ
  follow_up_questions : List String
  query : String
  processed_query : Option ProcessedQuery
  num_documents_retrieved : Option Nat
  error : Option String
deriving DecidableEq

/-- The except-branch dict of `RAGSystem.process_query`. -/
def rag_fallback (query e : String) : RagResponse :=
  { answer := "I\x27m sorry, I encountered an error while processing your query. Please try asking your question differently."
    citations := []
    confidence := 0
    follow_up_questions := []
    query := query
    processed_query := none
    num_documents_retrieved := none
    error := some e }

/-- The retrieval loop: run every search query in order, concatenating the
result lists. -/
def retrieve_all (search : String → Nat → Except String (List Doc)) (k : Nat) :
    List String → Except String (List Doc)
  | [] => Except.ok []
  | q :: qs =>
    match search q k with
    | Except.error e => Except.error e
    | Except.ok ds =>
      match retrieve_all search k qs with
      | Except.error e => Except.error e
      | Except.ok rest => Except.ok (ds ++ rest)

/-- Embedding of `RAGSystem._deduplicate_documents`: keep a document when the hash of
its content has not been seen, tracking seen hashes in a set.  The hash is
a parameter with an arbitrary codomain, standing for the seed-randomized
Python `hash`. -/
def dedup_aux (K : Type) [DecidableEq K] (h : String → K) :
    List K → List Doc → List Doc
  | _, [] => []
  | seen, d :: ds =>
    if h d.page_content ∈ seen then dedup_aux K h seen ds
    else d :: dedup_aux K h (h d.page_content :: seen) ds

def deduplicate_documents (K : Type) [DecidableEq K] (h : String → K) (docs : List Doc) :
    List Doc :=
  dedup_aux K h [] docs

/-- Modelled from the specification wording, for the refinement comparison
of the deduplication contract: keep for each distinct content exactly its
first occurrence, in first-seen order. -/
def spec_first_occurrences_aux : List String → List Doc → List Doc
  | _, [] => []
  | seen, d :: ds =>
    if d.page_content ∈ seen then spec_first_occurrences_aux seen ds
    else d :: spec_first_occurrences_aux (d.page_content :: seen) ds

def spec_first_occurrences (docs : List Doc) : List Doc :=
  spec_first_occurrences_aux [] docs

/-- The try-block of `RAGSystem.process_query`. -/
def rag_body (search : String → Nat → Except String (List Doc))
    (run_chain : String → String → Except String String)
    (json_loads : String → Except String ParsedJson)
    (hash_fn : String → Int)
    (query : String) (chat_history : List (String × String)) (num_results : Nat) :
    Except String RagResponse :=
  let pq := process_query query
  let sqs := generate_search_queries pq 3
  match retrieve_all search num_results sqs with
  | Except.error e => Except.error e
  | Except.ok all_documents =>
    let unique := deduplicate_documents Int hash_fn all_documents
    match generate_response run_chain json_loads query (unique.take num_results) chat_history with
    | Except.error e => Except.error e
    | Except.ok resp =>
      Except.ok { answer := resp.answer
                  citations := resp.citations
                  confidence := resp.confidence
                  follow_up_questions := resp.follow_up_questions
                  query := query
                  processed_query := some pq
                  num_documents_retrieved := some unique.length
                  error := none }

/-- Embedding of `RAGSystem.process_query`: the try-block wrapped in the catch-all
except-branch producing the apologetic fallback. -/
def rag_process_query (search : String → Nat → Except String (List Doc))
    (run_chain : String → String → Except String String)
    (json_loads : String → Except String ParsedJson)
    (hash_fn : String → Int)
    (query : String) (chat_history : List (String × String)) (num_results : Nat) :
    Except String RagResponse :=
  tryCatchE (rag_body search run_chain json_loads hash_fn query chat_history num_results)
    (fun e => Except.ok (rag_fallback query e))

/-! Knowledge base ingestion (knowledge_base.py).  The langchain text
splitter and the FAISS store update are parameters; the metadata counters
and disk persistence, which affect no returned value, are elided. -/

/-- One record of `add_financial_knowledge`; `none` models an absent key
(Python `item.get(key, default)`). -/
structure KnowledgeItem where
  content : String
  title : Option String
  source : Option String
  source_type : Option String
  url : Option String
  extra_metadata : List (String × String)
deriving DecidableEq

structure DocMetadata where
  title : String
  source : String
  source_type : String
  url : String
  extra : List (String × String)
deriving DecidableEq

/-- The accumulation loop of `add_financial_knowledge`: a passage whose
content is empty (falsy) is skipped with a warning log; the others yield a
text and a metadata record, in order. -/
def build_knowledge_texts : List KnowledgeItem → List String × List DocMetadata
  | [] => ([], [])
  | it :: rest =>
    let tm := build_knowledge_texts rest
    if it.content = "" then tm
    else (it.content :: tm.1,
          { title := it.title.getD ""
            source := it.source.getD "financial_knowledge"
            source_type := it.source_type.getD "knowledge_item"
            url := it.url.getD ""
            extra := it.extra_metadata } :: tm.2)

/-- Embedding of `KnowledgeBaseModule.add_documents`: split into chunks and add them to
the vector store, catching every exception (the Python function returns
None on every path). -/
def add_documents (split_fn : List Doc → Except String (List Doc))
    (store_add : List Doc → Except String Unit) (documents : List Doc) :
    Except String Unit :=
  tryCatchE
    (match split_fn documents with
     | Except.error e => Except.error e
     | Except.ok chunks => store_add chunks)
    (fun _ => Except.ok ())

def doc_of_text_metadata (p : String × DocMetadata) : Doc :=
  { page_content := p.1
    title := some p.2.title
    source := some p.2.source
    url := some p.2.url }

/-- Embedding of `KnowledgeBaseModule.add_texts`. -/
def add_texts (split_fn : List Doc → Except String (List Doc))
    (store_add : List Doc → Except String Unit)
    (texts : List String) (metadatas : List DocMetadata) : Except String Unit :=
  tryCatchE
    (add_documents split_fn store_add ((texts.zip metadatas).map doc_of_text_metadata))
    (fun _ => Except.ok ())

/-- Embedding of `KnowledgeBaseModule.add_financial_knowledge`.  The Python function is
annotated `-> None` and falls off the end, so its return value is modelled
as `Option Nat` (the type a stored-chunk count would inhabit) with value
`none` on every path. -/
def add_financial_knowledge (split_fn : List Doc → Except String (List Doc))
    (store_add : List Doc → Except String Unit)
    (knowledge_items : List KnowledgeItem) : Except String (Option Nat) :=
  tryCatchE
    (match add_texts split_fn store_add (build_knowledge_texts knowledge_items).1
        (build_knowledge_texts knowledge_items).2 with
     | Except.error e => Except.error e
     | Except.ok _ => Except.ok none)
    (fun _ => Except.ok none)

/-- Modelled from the specification wording, for the C3 comparison: the
raw output with every literal fenced-code marker removed unconditionally. -/
def spec_strip (raw : String) : String :=
  let a1 := replace_all "```json".data [] raw.data.length raw.data
  ⟨replace_all "```".data [] a1.length a1⟩

/-- The acceptance-test query of the specification (section 8). -/
def spec_example_query : String := "What is the 50/30/20 rule for a $5,000 budget?"

/-- Two concrete passages used to exercise the synthesizer fallback. -/
def two_docs : List Doc :=
  [{ page_content := "passage one", title := some "Doc A", source := some "srcA", url := none },
   { page_content := "passage two", title := none, source := none, url := none }]

/-- A generation output containing a bare fence marker, no `json` tag and
no braces: unparsable, and untouched by the conditional stripping. -/
def bare_fence_raw : String := "``` oops"

/-- Three concrete documents with one duplicated content. -/
def three_docs : List Doc :=
  [{ page_content := "alpha", title := none, source := none, url := none },
   { page_content := "beta", title := none, source := none, url := none },
   { page_content := "alpha", title := some "t", source := none, url := none }]

/-- A concrete ingestion batch with one empty-content record. -/
def mixed_items : List KnowledgeItem :=
  [{ content := "", title := some "t", source := none, source_type := none, url := none,
     extra_metadata := [] },
   { content := "real content", title := none, source := none, source_type := none, url := none,
     extra_metadata := [] }]

/-!
Theorems.
-/

/-- C8: analyzing the empty string is never rejected (the analyzer is a
total function of the query) and yields `is_question = False`, an empty
topics mapping, an empty numbers list, and complexity `"simple"`. -/
theorem c8_empty_query_analysis :
    ((process_query "").is_question, (process_query "").topics,
      (process_query "").numbers, (process_query "").complexity)
      = (false, [], [], Complexity.simple) := by
  with_unfolding_all rfl

/-- C4: evaluating the analyzer at the acceptance-test query of the
specification.  The query is flagged as a question and the budgeting topic
scores 2/3, but the numbers list holds two generic number entities (values
503020 and 5000) and no currency entity: `_clean_query` removes the dollar
sign (and the slashes and the comma) before `_extract_numbers` runs, so
the symbol-prefixed currency pattern cannot match. -/
theorem c4_spec_example_analysis :
    ((process_query spec_example_query).is_question,
      (process_query spec_example_query).numbers.map (fun n => (n.numType, n.value)),
      (process_query spec_example_query).topics.map (fun te => (te.topic, te.score)))
      = (true, [(NumType.number, 503020), (NumType.number, 5000)],
          [("budgeting", (2/3 : ℚ))]) := by
  with_unfolding_all rfl

/-- C6 counterexample: with a result budget of 0 the expander returns the
empty list, refuting the claim that for every `max_queries` at least one
query is returned. -/
theorem c6_counterexample :
    generate_search_queries (process_query "what is a budget?") 0 = [] := by
  with_unfolding_all rfl

/-- C2: the answer synthesizer never throws to the caller, and when the
generation capability itself raises, the returned answer has empty
citations, confidence exactly 0.0, empty follow-up questions, and the
apologetic answer text. -/
theorem c2_synthesizer_never_raises
    (run_chain : String → String → Except String String)
    (json_loads : String → Except String ParsedJson)
    (query : String) (docs : List Doc) (chat_history : List (String × String)) :
    (∃ r, generate_response run_chain json_loads query docs chat_history = Except.ok r) ∧
    (∀ e, run_chain query (format_context docs) = Except.error e →
      generate_response run_chain json_loads query docs chat_history =
        Except.ok
          { answer := "I\x27m sorry, I encountered an error while generating a response. Please try asking your question differently."
            citations := []
            confidence := 0
            follow_up_questions := [] }) := by
  constructor
  · cases hrc : run_chain query (format_context docs) with
    | error e =>
      exact ⟨generation_fallback, by simp [generate_response, tryCatchE, hrc]⟩
    | ok raw =>
      cases hp : parse_response json_loads raw with
      | error e =>
        exact ⟨generate_simple_response docs raw,
          by simp [generate_response, tryCatchE, hrc, hp]⟩
      | ok p => exact ⟨p, by simp [generate_response, tryCatchE, hrc, hp]⟩
  · intro e he
    simp [generate_response, tryCatchE, he, generation_fallback]

/-- C1: the pipeline orchestrator never raises to its caller; whenever its
try-block raises, the result is the apologetic fallback with empty
citations, confidence 0.0, empty follow-up questions, the echoed query,
and the exception detail only in the diagnostic `error` field. -/
theorem c1_orchestrator_never_raises
    (search : String → Nat → Except String (List Doc))
    (run_chain : String → String → Except String String)
    (json_loads : String → Except String ParsedJson)
    (hash_fn : String → Int)
    (query : String) (chat_history : List (String × String)) (num_results : Nat) :
    (∃ r, rag_process_query search run_chain json_loads hash_fn query chat_history num_results
        = Except.ok r) ∧
    (∀ e, rag_body search run_chain json_loads hash_fn query chat_history num_results
        = Except.error e →
      rag_process_query search run_chain json_loads hash_fn query chat_history num_results
        = Except.ok
            { answer := "I\x27m sorry, I encountered an error while processing your query. Please try asking your question differently."
              citations := []
              confidence := 0
              follow_up_questions := []
              query := query
              processed_query := none
              num_documents_retrieved := none
              error := some e }) := by
  constructor
  · cases hb : rag_body search run_chain json_loads hash_fn query chat_history num_results with
    | error e =>
      exact ⟨rag_fallback query e, by simp [rag_process_query, tryCatchE, hb]⟩
    | ok r => exact ⟨r, by simp [rag_process_query, tryCatchE, hb]⟩
  · intro e he
    simp [rag_process_query, tryCatchE, he, rag_fallback]

/-- C9 counterexample: ingesting the empty batch does not return the count
0 of stored chunks: the Python function returns None (modelled `none`) on
every path, refuting the claimed count-returning contract. -/
theorem c9_counterexample :
    add_financial_knowledge (fun ds => Except.ok ds) (fun _ => Except.ok ()) []
      ≠ Except.ok (some 0) := by
  intro h
  have h1 : add_financial_knowledge (fun ds => Except.ok ds) (fun _ => Except.ok ())
      ([] : List KnowledgeItem) = Except.ok (none : Option Nat) := rfl
  rw [h1] at h
  simp at h

/-- C9 as amended: ingestion never raises and returns no count (Python
None, modelled `none`), on the empty batch included; a passage with empty
content is excluded from the forwarded batch while every other passage is
forwarded, in order. -/
theorem c9_ingest_amended
    (split_fn : List Doc → Except String (List Doc))
    (store_add : List Doc → Except String Unit)
    (items : List KnowledgeItem) :
    add_financial_knowledge split_fn store_add items = Except.ok none ∧
    (build_knowledge_texts items).1
      = (items.filter fun it => !(it.content == "")).map (fun it => it.content) := by
  constructor
  · cases ht : add_texts split_fn store_add (build_knowledge_texts items).1
        (build_knowledge_texts items).2 with
    | error e => simp [add_financial_knowledge, tryCatchE, ht]
    | ok u => simp [add_financial_knowledge, tryCatchE, ht]
  · induction items with
    | nil => rfl
    | cons it rest ih =>
      by_cases hc : it.content = ""
      · simp [build_knowledge_texts, hc, List.filter_cons, ih]
      · simp [build_knowledge_texts, hc, List.filter_cons, ih]

theorem dollar_scan_eq_nil (fuel : Nat) :
    ∀ (i : Nat) (l : List Char), (∀ c ∈ l, c ≠ '$') → dollar_scan fuel i l = [] := by
  induction fuel with
  | zero => intro i l h; cases l <;> rfl
  | succ fuel ih =>
    intro i l h
    cases l with
    | nil => rfl
    | cons c cs =>
      have hc : ¬(c = '$') := h c (List.mem_cons_self c cs)
      simp only [dollar_scan, if_neg hc]
      exact ih (i + 1) cs fun x hx => h x (List.mem_cons_of_mem c hx)

theorem number_fold_step_all (text : List Char) (ms : List (Nat × List Char)) :
    ∀ acc : List NumEntry,
      (acc.all fun n => n.numType != NumType.currency) = true →
      ((ms.foldl (number_fold_step text) acc).all fun n => n.numType != NumType.currency)
        = true := by
  induction ms with
  | nil => intro acc hacc; exact hacc
  | cons m ms ih =>
    intro acc hacc
    simp only [List.foldl_cons]
    apply ih
    unfold number_fold_step
    split
    · exact hacc
    · rw [List.all_append, hacc]
      rfl

theorem extract_numbers_no_currency (text : List Char) (h : ∀ c ∈ text, c ≠ '$') :
    ((extract_numbers text).all fun n => n.numType != NumType.currency) = true := by
  unfold extract_numbers
  rw [dollar_scan_eq_nil text.length 0 text h]
  apply number_fold_step_all
  simp only [List.map_nil, List.nil_append, List.all_eq_true, List.mem_map]
  rintro n ⟨m, hm, rfl⟩
  rfl

/-- C10: for every raw query, the analyzer produces no currency-typed
numeric entity, because normalization removes the dollar sign before
extraction runs on the cleaned text. -/
theorem c10_no_currency_entities (query : String) :
    ((process_query query).numbers.all fun n => n.numType != NumType.currency) = true := by
  have h : ∀ c ∈ (clean_query query).data, c ≠ '$' := by
    intro c hc heq
    have hk : keep_char c = true := (List.mem_filter.mp hc).2
    rw [heq] at hk
    exact absurd hk (by decide)
  exact extract_numbers_no_currency (clean_query query).data h

theorem dedup_aux_eq_spec (K : Type) [DecidableEq K] (h : String → K)
    (hinj : Function.Injective h) :
    ∀ (ds : List Doc) (seen : List String),
      dedup_aux K h (seen.map h) ds = spec_first_occurrences_aux seen ds := by
  intro ds
  induction ds with
  | nil => intro seen; rfl
  | cons d rest ih =>
    intro seen
    by_cases hm : d.page_content ∈ seen
    · have hmk : h d.page_content ∈ seen.map h := List.mem_map_of_mem h hm
      simp only [dedup_aux, spec_first_occurrences_aux, if_pos hm, if_pos hmk]
      exact ih seen
    · have hmk : h d.page_content ∉ seen.map h := by
        intro hx
        obtain ⟨a, ha, hae⟩ := List.mem_map.mp hx
        exact hm (hinj hae ▸ ha)
      simp only [dedup_aux, spec_first_occurrences_aux, if_neg hm, if_neg hmk]
      exact congrArg (d :: ·) (ih (d.page_content :: seen))

theorem spec_first_occurrences_aux_props :
    ∀ (ds : List Doc) (seen : List String),
      List.Pairwise (fun a b => a.page_content ≠ b.page_content)
        (spec_first_occurrences_aux seen ds) ∧
      ∀ x ∈ spec_first_occurrences_aux seen ds, x.page_content ∉ seen := by
  intro ds
  induction ds with
  | nil => intro seen; exact ⟨List.Pairwise.nil, by simp [spec_first_occurrences_aux]⟩
  | cons d rest ih =>
    intro seen
    by_cases hm : d.page_content ∈ seen
    · simpa only [spec_first_occurrences_aux, if_pos hm] using ih seen
    · obtain ⟨hp, hn⟩ := ih (d.page_content :: seen)
      simp only [spec_first_occurrences_aux, if_neg hm]
      refine ⟨List.pairwise_cons.mpr ⟨?_, hp⟩, ?_⟩
      · intro x hx heq
        exact hn x hx (heq ▸ List.mem_cons_self _ _)
      · intro x hx
        rcases List.mem_cons.mp hx with rfl | hx'
        · exact hm
        · exact fun hs => hn x hx' (List.mem_cons_of_mem _ hs)

/-- C5: under a collision-free content hash, deduplication keeps for each
distinct content exactly its first occurrence, in first-seen order (it
coincides with the specification-side first-occurrence filter), the
truncated output is bounded by the result budget, and no two returned
passages share a content. -/
theorem c5_dedup_contract (K : Type) [inst : DecidableEq K] (h : String → K)
    (docs : List Doc) (budget : Nat) (hinj : Function.Injective h) :
    deduplicate_documents K h docs = spec_first_occurrences docs ∧
    ((deduplicate_documents K h docs).take budget).length ≤ budget ∧
    List.Pairwise (fun a b => a.page_content ≠ b.page_content)
      ((deduplicate_documents K h docs).take budget) := by
  have heq : deduplicate_documents K h docs = spec_first_occurrences docs := by
    have := dedup_aux_eq_spec K h hinj docs []
    simpa only [deduplicate_documents, spec_first_occurrences, List.map_nil] using this
  refine ⟨heq, List.length_take_le _ _, ?_⟩
  rw [heq]
  exact List.Pairwise.sublist (List.take_sublist _ _)
    (spec_first_occurrences_aux_props docs []).1

/-- C5 witness: the contract instantiated at the identity key (injective)
on a concrete list with a duplicated content. -/
theorem c5_dedup_contract_witness :
    deduplicate_documents String (fun s => s) three_docs = spec_first_occurrences three_docs ∧
    ((deduplicate_documents String (fun s => s) three_docs).take 5).length ≤ 5 ∧
    List.Pairwise (fun a b => a.page_content ≠ b.page_content)
      ((deduplicate_documents String (fun s => s) three_docs).take 5) :=
  c5_dedup_contract String (fun s => s) three_docs 5 (fun a b hab => hab)

/-- C6 as amended: for every analyzed query and every `max_queries` of at
least 1, the expander returns between 1 and `max_queries` queries, the
first being the normalized query, and every further query being built
from one of the top-2 topics as topic name, up to 2 matched keywords,
then the normalized query. -/
theorem c6_expander_amended (pq : ProcessedQuery) (mq : Nat) (hmq : 1 ≤ mq) :
    (generate_search_queries pq mq).head? = some pq.cleaned_query ∧
    1 ≤ (generate_search_queries pq mq).length ∧
    (generate_search_queries pq mq).length ≤ mq ∧
    ∀ q ∈ (generate_search_queries pq mq).tail, ∃ te ∈ pq.topics.take 2,
      te.matched_keywords ≠ [] ∧
      q = te.topic ++ " " ++ String.intercalate " " (te.matched_keywords.take 2)
            ++ " " ++ pq.cleaned_query := by
  obtain ⟨m, rfl⟩ : ∃ m, mq = m + 1 := ⟨mq - 1, by omega⟩
  have hgen : generate_search_queries pq (m + 1)
      = pq.cleaned_query ::
          (((pq.topics.take 2).filterMap fun te =>
              if te.matched_keywords = [] then none
              else some (mk_topic_query te pq.cleaned_query)).take m) := by
    simp [generate_search_queries, List.take_succ_cons]
  refine ⟨?_, ?_, ?_, ?_⟩
  · rw [hgen]; rfl
  · rw [hgen]; simp
  · rw [hgen]
    simp only [List.length_cons]
    have := List.length_take_le m
      ((pq.topics.take 2).filterMap fun te =>
        if te.matched_keywords = [] then none
        else some (mk_topic_query te pq.cleaned_query))
    omega
  · rw [hgen]
    intro q hq
    simp only [List.tail_cons] at hq
    have hq' := (List.take_sublist m _).subset hq
    obtain ⟨te, hte, hf⟩ := List.mem_filterMap.mp hq'
    by_cases hne : te.matched_keywords = []
    · rw [if_pos hne] at hf; cases hf
    · rw [if_neg hne] at hf
      obtain rfl := Option.some.inj hf
      exact ⟨te, hte, hne, rfl⟩

/-- C6 witness: the amended contract instantiated at a concrete analyzed
query and budget 3. -/
theorem c6_expander_amended_witness :
    (generate_search_queries (process_query "how should i budget my income?") 3).head?
        = some (process_query "how should i budget my income?").cleaned_query ∧
    1 ≤ (generate_search_queries (process_query "how should i budget my income?") 3).length ∧
    (generate_search_queries (process_query "how should i budget my income?") 3).length ≤ 3 ∧
    ∀ q ∈ (generate_search_queries (process_query "how should i budget my income?") 3).tail,
      ∃ te ∈ (process_query "how should i budget my income?").topics.take 2,
        te.matched_keywords ≠ [] ∧
        q = te.topic ++ " " ++ String.intercalate " " (te.matched_keywords.take 2)
              ++ " " ++ (process_query "how should i budget my income?").cleaned_query :=
  c6_expander_amended (process_query "how should i budget my income?") 3 (by decide)

theorem insert_desc_perm (e : TopicEntry) (l : List TopicEntry) :
    List.Perm (insert_desc e l) (e :: l) := by
  induction l with
  | nil => exact List.Perm.refl _
  | cons x xs ih =>
    by_cases hc : e.score < x.score
    · simp only [insert_desc, if_pos hc]
      exact (ih.cons x).trans (List.Perm.swap e x xs)
    · simp only [insert_desc, if_neg hc]
      exact List.Perm.refl _

theorem sort_desc_perm (l : List TopicEntry) : List.Perm (sort_desc l) l := by
  induction l with
  | nil => exact List.Perm.refl _
  | cons x xs ih => exact (insert_desc_perm x (sort_desc xs)).trans (ih.cons x)

theorem pairwise_insert_desc (e : TopicEntry) (l : List TopicEntry)
    (hl : List.Pairwise (fun a b => b.score ≤ a.score) l) :
    List.Pairwise (fun a b => b.score ≤ a.score) (insert_desc e l) := by
  induction l with
  | nil => simp [insert_desc]
  | cons x xs ih =>
    obtain ⟨hx, hxs⟩ := List.pairwise_cons.mp hl
    by_cases hc : e.score < x.score
    · simp only [insert_desc, if_pos hc]
      refine List.pairwise_cons.mpr ⟨?_, ih hxs⟩
      intro y hy
      rcases List.mem_cons.mp ((insert_desc_perm e xs).mem_iff.mp hy) with rfl | hy'
      · exact le_of_lt hc
      · exact hx y hy'
    · simp only [insert_desc, if_neg hc]
      refine List.pairwise_cons.mpr ⟨?_, hl⟩
      intro y hy
      rcases List.mem_cons.mp hy with rfl | hy'
      · exact le_of_not_lt hc
      · exact (hx y hy').trans (le_of_not_lt hc)

theorem sorted_sort_desc (l : List TopicEntry) :
    List.Pairwise (fun a b => b.score ≤ a.score) (sort_desc l) := by
  induction l with
  | nil => exact List.Pairwise.nil
  | cons x xs ih => exact pairwise_insert_desc x (sort_desc xs) ih

theorem topic_raw_score_cons (a : Nat × Nat) (l : List (Nat × Nat)) :
    topic_raw_score (a :: l)
      = (a.1 : ℚ) * (1/2 + (1/2) * (a.2 : ℚ) / 3) + topic_raw_score l := rfl

theorem topic_raw_score_mono {p1 p2 : List (Nat × Nat)}
    (h : List.Forall₂ (fun a b => a.1 ≤ b.1 ∧ a.2 ≤ b.2) p1 p2) :
    topic_raw_score p1 ≤ topic_raw_score p2 := by
  induction h with
  | nil => exact le_refl _
  | @cons a b l1 l2 hab htail ih =>
    rw [topic_raw_score_cons, topic_raw_score_cons]
    have h1 : (a.1 : ℚ) ≤ (b.1 : ℚ) := Nat.cast_le.mpr hab.1
    have h2 : (a.2 : ℚ) ≤ (b.2 : ℚ) := Nat.cast_le.mpr hab.2
    have hterm : (a.1 : ℚ) * (1/2 + (1/2) * (a.2 : ℚ) / 3)
        ≤ (b.1 : ℚ) * (1/2 + (1/2) * (b.2 : ℚ) / 3) := by
      apply mul_le_mul h1 (by linarith) (by positivity) (by positivity)
    exact add_le_add hterm ih

theorem topic_score_mono {p1 p2 : List (Nat × Nat)}
    (h : List.Forall₂ (fun a b => a.1 ≤ b.1 ∧ a.2 ≤ b.2) p1 p2) :
    topic_score p1 ≤ topic_score p2 :=
  min_le_min (topic_raw_score_mono h) (le_refl 1)

theorem extract_topics_score_mem (cfg : List (String × List String)) (text : List Char)
    (te : TopicEntry) (hte : te ∈ extract_topics cfg text) : 0 < te.score ∧ te.score ≤ 1 := by
  unfold extract_topics at hte
  obtain ⟨tk, htk, hf⟩ := List.mem_filterMap.mp ((sort_desc_perm _).mem_iff.mp hte)
  by_cases hr : 0 < topic_raw_score (keyword_pairs tk.2 text)
  · rw [if_pos hr] at hf
    obtain rfl := Option.some.inj hf
    exact ⟨lt_min hr one_pos, min_le_right _ _⟩
  · rw [if_neg hr] at hf
    cases hf

/-- C7: every per-topic score of the classifier is strictly positive and
at most 1, the returned mapping is ordered descending by score, and the
capped score is monotonically non-decreasing in each keyword match count
and each keyword phrase length. -/
theorem c7_topic_classifier_properties (text : List Char) :
    (∀ te ∈ extract_topics financial_topics text, 0 < te.score ∧ te.score ≤ 1) ∧
    List.Pairwise (fun a b => b.score ≤ a.score) (extract_topics financial_topics text) ∧
    (∀ p1 p2 : List (Nat × Nat),
      List.Forall₂ (fun a b => a.1 ≤ b.1 ∧ a.2 ≤ b.2) p1 p2 →
      topic_score p1 ≤ topic_score p2) :=
  ⟨fun te hte => extract_topics_score_mem financial_topics text te hte,
   sorted_sort_desc _,
   fun _ _ h => topic_score_mono h⟩

/-- C7 witness: the classifier properties at a concrete text. -/
theorem c7_topic_classifier_properties_witness :
    (∀ te ∈ extract_topics financial_topics "can i budget and invest my savings?".data,
      0 < te.score ∧ te.score ≤ 1) ∧
    List.Pairwise (fun a b => b.score ≤ a.score)
      (extract_topics financial_topics "can i budget and invest my savings?".data) ∧
    (∀ p1 p2 : List (Nat × Nat),
      List.Forall₂ (fun a b => a.1 ≤ b.1 ∧ a.2 ≤ b.2) p1 p2 →
      topic_score p1 ≤ topic_score p2) :=
  c7_topic_classifier_properties "can i budget and invest my savings?".data

theorem simple_citations_relevance (docs : List Doc) :
    ∀ i, (simple_citations i docs).map (fun c => c.relevance)
      = (List.range' i docs.length).map (fun k : Nat => 1 / ((k : ℚ) + 1)) := by
  induction docs with
  | nil => intro i; rfl
  | cons d ds ih =>
    intro i
    simp only [simple_citations, List.map_cons, List.length_cons, List.range'_succ, ih (i + 1)]

theorem simple_citations_quote (docs : List Doc) :
    ∀ i, (simple_citations i docs).map (fun c => c.quote)
      = List.replicate docs.length none := by
  induction docs with
  | nil => intro i; rfl
  | cons d ds ih =>
    intro i
    simp only [simple_citations, List.map_cons, List.length_cons, List.replicate_succ,
      ih (i + 1)]

theorem parse_response_error_of_no_json (json_loads : String → Except String ParsedJson)
    (raw : String) (h : can_extract_json raw = false) :
    ∃ e, parse_response json_loads raw = Except.error e := by
  unfold can_extract_json at h
  unfold parse_response
  cases he : extract_json raw.data with
  | error e => exact ⟨e, rfl⟩
  | ok js => rw [he] at h; simp at h

/-- C3 counterexample: a generation output holding a bare fence marker but
no `json` tag is left verbatim in the degraded answer, while the claimed
unconditional marker-stripping would remove it. -/
theorem c3_counterexample :
    generate_response (fun _ _ => Except.ok bare_fence_raw) (fun _ => Except.error "unused")
        "q" two_docs [] = Except.ok (generate_simple_response two_docs bare_fence_raw) ∧
    (generate_simple_response two_docs bare_fence_raw).answer ≠ spec_strip bare_fence_raw := by
  constructor
  · rfl
  · intro h
    have h1 : (generate_simple_response two_docs bare_fence_raw).answer = "``` oops" := rfl
    have h2 : spec_strip bare_fence_raw = " oops" := rfl
    rw [h1, h2] at h
    exact absurd h (by decide)

/-- C3 as amended: on parse failure the synthesizer degrades to the simple
response: the answer is the raw output with the fenced-code markers
removed when (and only when) the raw output contains the literal marker
followed by `json`, and verbatim otherwise; there is exactly one citation
per input passage in input order with relevance 1/(position+1) and no
quote; the confidence is exactly 0.7. -/
theorem c3_parse_failure_degradation
    (run_chain : String → String → Except String String)
    (json_loads : String → Except String ParsedJson)
    (query : String) (docs : List Doc) (chat_history : List (String × String)) (raw : String)
    (hrc : run_chain query (format_context docs) = Except.ok raw)
    (hnj : can_extract_json raw = false) :
    generate_response run_chain json_loads query docs chat_history
        = Except.ok (generate_simple_response docs raw) ∧
    (generate_simple_response docs raw).answer
        = (if contains_sub "```json".data raw.data then spec_strip raw else raw) ∧
    (generate_simple_response docs raw).citations.map (fun c => c.relevance)
        = (List.range docs.length).map (fun i : Nat => 1 / ((i : ℚ) + 1)) ∧
    (generate_simple_response docs raw).citations.map (fun c => c.quote)
        = List.replicate docs.length none ∧
    (generate_simple_response docs raw).confidence = 7/10 := by
  obtain ⟨e, hpe⟩ := parse_response_error_of_no_json json_loads raw hnj
  refine ⟨?_, ?_, ?_, ?_, rfl⟩
  · simp [generate_response, tryCatchE, hrc, hpe]
  · by_cases hm : contains_sub "```json".data raw.data
    · simp only [generate_simple_response, spec_strip, if_pos hm]
    · simp only [generate_simple_response, spec_strip, if_neg hm]
  · rw [List.range_eq_range']
    exact simple_citations_relevance docs 0
  · exact simple_citations_quote docs 0

/-- C3 witness: the amended degradation contract instantiated at the two
concrete passages and the concrete unparsable output, giving relevances
1.0 and 0.5 in input order. -/
theorem c3_parse_failure_degradation_witness :
    generate_response (fun _ _ => Except.ok bare_fence_raw) (fun _ => Except.error "unused")
        "q2" two_docs [] = Except.ok (generate_simple_response two_docs bare_fence_raw) ∧
    (generate_simple_response two_docs bare_fence_raw).answer
        = (if contains_sub "```json".data bare_fence_raw.data then spec_strip bare_fence_raw
           else bare_fence_raw) ∧
    (generate_simple_response two_docs bare_fence_raw).citations.map (fun c => c.relevance)
        = (List.range two_docs.length).map (fun i : Nat => 1 / ((i : ℚ) + 1)) ∧
    (generate_simple_response two_docs bare_fence_raw).citations.map (fun c => c.quote)
        = List.replicate two_docs.length none ∧
    (generate_simple_response two_docs bare_fence_raw).confidence = 7/10 :=
  c3_parse_failure_degradation (fun _ _ => Except.ok bare_fence_raw)
    (fun _ => Except.error "unused") "q2" two_docs [] bare_fence_raw rfl rfl

/-- C2 witness: a throwing generation capability yields the apologetic
zero-confidence fallback. -/
theorem c2_synthesizer_never_raises_witness :
    generate_response (fun _ _ => Except.error "model down") (fun _ => Except.error "unused")
        "q" [] []
      = Except.ok
          { answer := "I\x27m sorry, I encountered an error while generating a response. Please try asking your question differently."
            citations := []
            confidence := 0
            follow_up_questions := [] } :=
  (c2_synthesizer_never_raises (fun _ _ => Except.error "model down")
    (fun _ => Except.error "unused") "q" [] []).2 "model down" rfl

/-- C1 witness: a throwing retrieval capability yields the apologetic
zero-confidence fallback with the exception detail in the error field. -/
theorem c1_orchestrator_never_raises_witness :
    rag_process_query (fun _ _ => Except.error "vector store offline")
        (fun _ _ => Except.ok "x") (fun _ => Except.error "unused") (fun _ => 0) "hello" [] 5
      = Except.ok
          { answer := "I\x27m sorry, I encountered an error while processing your query. Please try asking your question differently."
            citations := []
            confidence := 0
            follow_up_questions := []
            query := "hello"
            processed_query := none
            num_documents_retrieved := none
            error := some "vector store offline" } :=
  (c1_orchestrator_never_raises (fun _ _ => Except.error "vector store offline")
    (fun _ _ => Except.ok "x") (fun _ => Except.error "unused") (fun _ => 0) "hello" [] 5).2
    "vector store offline" (by with_unfolding_all rfl)

/-- C9 witness: the amended ingestion contract at a concrete batch with
one empty-content record. -/
theorem c9_ingest_amended_witness :
    add_financial_knowledge (fun ds => Except.ok ds) (fun _ => Except.ok ()) mixed_items
        = Except.ok none ∧
    (build_knowledge_texts mixed_items).1
        = (mixed_items.filter fun it => !(it.content == "")).map (fun it => it.content) :=
  c9_ingest_amended (fun ds => Except.ok ds) (fun _ => Except.ok ()) mixed_items
